import Mathlib

/-!
Shallow embedding of the VRP core of `src/app.py` (Supply Chain Digital Twin
and AI Route Optimizer): the haversine great-circle distance and the integer
distance matrix, the route-extraction loop that reads the solver's
per-vehicle tours back into leg lists, the schedule projection that turns
leg distances into per-stop arrival times, and the session cache around the
solve step.  Floating-point arithmetic of the source is modelled over `ℝ`
(geometry) and `ℚ` (schedule arithmetic); Python `int(...)` is truncation
toward zero.
-/

namespace VRP

/-! ### Great-circle distance (`app.py` lines 23-30) -/

/-- `math.radians`: degrees to radians. -/
noncomputable def deg2rad (x : ℝ) : ℝ := x * (Real.pi / 180)

/-- The haversine intermediate
`a = sin(dlat/2)**2 + cos(lat1) * cos(lat2) * sin(dlon/2)**2`
(`app.py` lines 24-27, after converting all four inputs to radians). -/
noncomputable def hav_a (lon1 lat1 lon2 lat2 : ℝ) : ℝ :=
  Real.sin ((deg2rad lat2 - deg2rad lat1) / 2) ^ 2 +
    Real.cos (deg2rad lat1) * Real.cos (deg2rad lat2) *
      Real.sin ((deg2rad lon2 - deg2rad lon1) / 2) ^ 2

/-- `haversine(lon1, lat1, lon2, lat2)`: great-circle distance in km,
`c * r` with `c = 2 * asin(sqrt(a))` and `r = 6371` (`app.py` lines 28-30). -/
noncomputable def haversine (lon1 lat1 lon2 lat2 : ℝ) : ℝ :=
  2 * Real.arcsin (Real.sqrt (hav_a lon1 lat1 lon2 lat2)) * 6371

/-- Python `int(x)` on a float: truncation toward zero. -/
noncomputable def intTrunc (x : ℝ) : ℤ := if 0 ≤ x then ⌊x⌋ else ⌈x⌉

/-- A generated location; only the coordinates matter for the matrix. -/
structure Location where
  lat : ℝ
  lon : ℝ

/-- The nested matrix loop (`app.py` lines 105-112): for every pair `(i, j)`
of location indices, `int(haversine(lon_i, lat_i, lon_j, lat_j) * 1000)`. -/
noncomputable def dist_matrix (locs : List Location) : List (List ℤ) :=
  locs.map (fun li => locs.map (fun lj =>
    intTrunc (haversine li.lon li.lat lj.lon lj.lat * 1000)))

/-- Lookup `dist_matrix[i][j]` (total, with a default outside the table). -/
def matEntry (m : List (List ℤ)) (i j : ℕ) : ℤ := ((m[i]?.getD [])[j]?).getD 0

/-! ### Route extraction from the solved model (`app.py` lines 140-175) -/

/-- One leg recorded by the extraction while-loop (`app.py` lines 148-164):
start node, end node and the matrix distance `dist_m` between them.  The
source also stores the two coordinate pairs and the end name; the end name
contains `"Depot"` exactly when the end node is 0. -/
structure Leg where
  startNode : ℕ
  endNode : ℕ
  dist_m : ℤ
deriving DecidableEq

/-- Consecutive legs of a node path, each carrying `dist node next`. -/
def legsOfPath (dist : ℕ → ℕ → ℤ) : List ℕ → List Leg
  | a :: b :: rest => ⟨a, b, dist a b⟩ :: legsOfPath dist (b :: rest)
  | _ => []

/-- The legs recorded for one vehicle: the solver walk starts at the depot
(node 0), visits the vehicle's customers in tour order, and its end index
maps back to the depot, so the traversed node path is `0 :: tour ++ [0]`. -/
def routeLegs (dist : ℕ → ℕ → ℤ) (tour : List ℕ) : List Leg :=
  legsOfPath dist (0 :: (tour ++ [0]))

/-- `total_dist = sum(leg['dist_m'] for leg in route_legs)` (line 167). -/
def totalDist (legs : List Leg) : ℤ := (legs.map Leg.dist_m).sum

/-- `colors = ['red', 'blue', 'green', 'orange', 'purple']` (line 142). -/
def colors : List String := ["red", "blue", "green", "orange", "purple"]

/-- One entry of `raw_routes` (lines 169-173). -/
structure RawRoute where
  vehicle_id : ℕ
  color : String
  legs : List Leg
deriving DecidableEq

/-- The `for vehicle_id in range(num_vehicles)` loop (lines 144-173): extract
each vehicle's legs and append the route only when it has at least one leg
and a positive total distance. -/
def raw_routes_aux (dist : ℕ → ℕ → ℤ) : ℕ → List (List ℕ) → List RawRoute
  | _, [] => []
  | vid, t :: ts =>
    if 0 < (routeLegs dist t).length ∧ 0 < totalDist (routeLegs dist t) then
      ⟨vid + 1, colors.getD (vid % colors.length) "red", routeLegs dist t⟩ ::
        raw_routes_aux dist (vid + 1) ts
    else
      raw_routes_aux dist (vid + 1) ts

/-- `raw_routes`, built from the solver's per-vehicle customer tours. -/
def raw_routes (dist : ℕ → ℕ → ℤ) (tours : List (List ℕ)) : List RawRoute :=
  raw_routes_aux dist 0 tours

/-- The customer stops presented for a route: leg end nodes other than the
depot (the source filters on `"Depot" not in leg["end_name"]`, and only
node 0 carries the name `Central Depot`). -/
def routeStops (r : RawRoute) : List ℕ :=
  (r.legs.map Leg.endNode).filter (fun x => x ≠ 0)

/-- The configured vehicle maximum travel distance of the `Distance`
dimension (line 129). -/
def maxDistancePerVehicle : ℤ := 300000

/-! ### Schedule projection (`app.py` lines 79, 190-206, 243-245) -/

/-- `effective_speed = base_speed * (1 - (traffic_intensity / 100))`
(line 79); `traffic` is the slider percentage. -/
def effective_speed (base traffic : ℚ) : ℚ := base * (1 - traffic / 100)

/-- The divisor the projection actually uses: `max(effective_speed, 1)`
(line 202). -/
def projection_speed (base traffic : ℚ) : ℚ := max (effective_speed base traffic) 1

/-- `travel_min = (leg["dist_m"] / 1000) / max(effective_speed, 1) * 60`
(line 202). -/
def travel_min (dist_m : ℤ) (base traffic : ℚ) : ℚ :=
  ((dist_m : ℚ) / 1000) / projection_speed base traffic * 60

/-- `service_min = 15` (line 203). -/
def service_min : ℚ := 15

/-- The per-leg increment of `vehicle_time` (line 205). -/
def leg_minutes (base traffic : ℚ) (leg : Leg) : ℚ :=
  travel_min leg.dist_m base traffic + service_min

/-- `current_time_base = datetime.datetime.now().replace(hour=8, minute=0,
second=0)` (line 190), measured in minutes: day `d` of the wall clock at
08:00 plus the sub-minute remainder `micro` that `replace` does not reset. -/
def current_time_base (d : ℕ) (micro : ℚ) : ℚ := 1440 * d + 8 * 60 + micro

/-- The successive values of `vehicle_time` after each leg (lines 200-206):
one arrival timestamp per leg, the stop's own service time included. -/
def arrivalTimes (base traffic : ℚ) : ℚ → List Leg → List ℚ
  | _, [] => []
  | t0, leg :: rest =>
    (t0 + leg_minutes base traffic leg) ::
      arrivalTimes base traffic (t0 + leg_minutes base traffic leg) rest

/-- The final `vehicle_time` after walking a route's legs (line 205). -/
def vehicle_time (base traffic t0 : ℚ) (legs : List Leg) : ℚ :=
  legs.foldl (fun t leg => t + leg_minutes base traffic leg) t0

/-- Total travel minutes of a leg list (no service time). -/
def travelSum (base traffic : ℚ) (legs : List Leg) : ℚ :=
  (legs.map (fun leg => travel_min leg.dist_m base traffic)).sum

/-- Modelled from the spec: the per-route elapsed time the specification
describes — accumulated travel time plus `service_duration` multiplied by
the number of customer stops visited, with no service time accrued for the
final return leg to the depot. -/
def spec_route_elapsed (base traffic : ℚ) (legs : List Leg) : ℚ :=
  travelSum base traffic legs +
    service_min * (((legs.filter (fun l => l.endNode ≠ 0)).length : ℕ) : ℚ)

/-! ### Session cache around the solve step (`app.py` lines 91-92, 140-181) -/

/-- The payload stored in `st.session_state.vrp_data_v7` (line 175). -/
structure VrpData where
  center : ℚ × ℚ
  raw_routes : List RawRoute
deriving DecidableEq

/-- Session update on a solve outcome (lines 140-177): a successful solve
stores the fresh data; a failed solve leaves the cached value unchanged. -/
def update_on_solve (s : Option VrpData) (result : Option VrpData) : Option VrpData :=
  match result with
  | some d => some d
  | none => s

/-- `st.error(...)` is shown exactly when the solver returns no solution
(lines 176-177). -/
def solve_error_shown (result : Option VrpData) : Bool := result.isNone

/-- The renderer draws whatever `st.session_state.vrp_data_v7` holds
(lines 180-181); `none` renders nothing. -/
def rendered (s : Option VrpData) : Option VrpData := s

/-! ### Concrete inputs used by witnesses and counterexamples -/

/-- A small concrete distance function: 0 on the diagonal, 1000 m between
distinct stops. -/
def demoDist (i j : ℕ) : ℤ := if i = j then 0 else 1000

/-- A distance function whose entries are all zero, as produced when a
random customer lands at the depot's own coordinates (the product
`haversine * 1000` truncates to 0 m below roughly one metre). -/
def zeroDist : ℕ → ℕ → ℤ := fun _ _ => 0

/-- The legs of the single tour `[1]` under `demoDist`. -/
def demoLegs : List Leg := routeLegs demoDist [1]

/-- The route the extraction produces for the single tour `[1]`. -/
def demoRoute : RawRoute := ⟨1, "red", demoLegs⟩

/-- A cached solution payload with no routes. -/
def demoVrp : VrpData := ⟨(9, 45), []⟩

/-- A location list with a single (depot) entry. -/
def demoLocs : List Location := [⟨45, 9⟩]

/-! ### Helper lemmas -/

theorem legsOfPath_map_endNode (dist : ℕ → ℕ → ℤ) :
    ∀ (a : ℕ) (rest : List ℕ),
      (legsOfPath dist (a :: rest)).map Leg.endNode = rest
  | _, [] => rfl
  | a, b :: rest => by
    simp only [legsOfPath, List.map_cons, List.cons.injEq, true_and]
    exact legsOfPath_map_endNode dist b rest

theorem legsOfPath_length (dist : ℕ → ℕ → ℤ) :
    ∀ (a : ℕ) (rest : List ℕ),
      (legsOfPath dist (a :: rest)).length = rest.length
  | _, [] => rfl
  | a, b :: rest => by
    simp only [legsOfPath, List.length_cons, Nat.add_right_cancel_iff]
    exact legsOfPath_length dist b rest

theorem routeLegs_map_endNode (dist : ℕ → ℕ → ℤ) (tour : List ℕ) :
    (routeLegs dist tour).map Leg.endNode = tour ++ [0] :=
  legsOfPath_map_endNode dist 0 (tour ++ [0])

theorem routeLegs_length (dist : ℕ → ℕ → ℤ) (tour : List ℕ) :
    (routeLegs dist tour).length = tour.length + 1 := by
  unfold routeLegs
  rw [legsOfPath_length dist 0 (tour ++ [0]), List.length_append,
    List.length_singleton]

theorem routeLegs_length_pos (dist : ℕ → ℕ → ℤ) (tour : List ℕ) :
    0 < (routeLegs dist tour).length := by
  rw [routeLegs_length]; omega

/-- Every extracted route comes from one of the solver's tours, carries
exactly that tour's legs, and passed the positivity filter. -/
theorem mem_raw_routes_aux (dist : ℕ → ℕ → ℤ) :
    ∀ (vid : ℕ) (tours : List (List ℕ)) (r : RawRoute),
      r ∈ raw_routes_aux dist vid tours →
      ∃ t ∈ tours, r.legs = routeLegs dist t ∧ 0 < totalDist r.legs
  | _, [], r => by simp [raw_routes_aux]
  | vid, t :: ts, r => by
    rw [raw_routes_aux]
    by_cases hk : 0 < (routeLegs dist t).length ∧ 0 < totalDist (routeLegs dist t)
    · rw [if_pos hk]
      intro hr
      rcases List.mem_cons.mp hr with hr | hr
      · exact ⟨t, List.mem_cons_self t ts, by rw [hr], by rw [hr]; exact hk.2⟩
      · obtain ⟨u, hu, h1, h2⟩ := mem_raw_routes_aux dist (vid + 1) ts r hr
        exact ⟨u, List.mem_cons_of_mem t hu, h1, h2⟩
    · rw [if_neg hk]
      intro hr
      obtain ⟨u, hu, h1, h2⟩ := mem_raw_routes_aux dist (vid + 1) ts r hr
      exact ⟨u, List.mem_cons_of_mem t hu, h1, h2⟩

/-- For a tour of nonzero customer nodes, the displayed stops of the
extracted route are exactly the tour. -/
theorem routeStops_routeLegs (dist : ℕ → ℕ → ℤ) (vid : ℕ) (col : String)
    (tour : List ℕ) (h : ∀ x ∈ tour, x ≠ 0) :
    routeStops ⟨vid, col, routeLegs dist tour⟩ = tour := by
  unfold routeStops
  simp only [routeLegs_map_endNode, List.filter_append]
  have h1 : tour.filter (fun x => x ≠ 0) = tour :=
    List.filter_eq_self.mpr (fun a ha => by simpa using h a ha)
  have h2 : ([0] : List ℕ).filter (fun x => x ≠ 0) = [] := rfl
  rw [h1, h2, List.append_nil]

/-- Summing the per-route customer counts over the extraction's output
agrees with summing them over all tours, provided every tour that contains
the customer survives the positivity filter. -/
theorem raw_routes_aux_count (dist : ℕ → ℕ → ℤ) (c : ℕ) :
    ∀ (vid : ℕ) (tours : List (List ℕ)),
      (∀ t ∈ tours, ∀ x ∈ t, x ≠ 0) →
      (∀ t ∈ tours, c ∈ t → 0 < totalDist (routeLegs dist t)) →
      ((raw_routes_aux dist vid tours).map (fun r => (routeStops r).count c)).sum
        = (tours.map (fun t => t.count c)).sum
  | _, [], _, _ => rfl
  | vid, t :: ts, h0, h2 => by
    have h0t : ∀ x ∈ t, x ≠ 0 := h0 t (List.mem_cons_self t ts)
    have ih := raw_routes_aux_count dist c (vid + 1) ts
      (fun u hu => h0 u (List.mem_cons_of_mem t hu))
      (fun u hu => h2 u (List.mem_cons_of_mem t hu))
    rw [raw_routes_aux]
    by_cases hk : 0 < (routeLegs dist t).length ∧ 0 < totalDist (routeLegs dist t)
    · rw [if_pos hk]
      simp only [List.map_cons, List.sum_cons]
      rw [ih, routeStops_routeLegs dist (vid + 1)
        (colors.getD (vid % colors.length) "red") t h0t]
    · rw [if_neg hk]
      have hnot : ¬ 0 < totalDist (routeLegs dist t) :=
        fun hpos => hk ⟨routeLegs_length_pos dist t, hpos⟩
      have hc : c ∉ t := fun hc => hnot (h2 t (List.mem_cons_self t ts) hc)
      simp only [List.map_cons, List.sum_cons, List.count_eq_zero.mpr hc,
        Nat.zero_add]
      exact ih

theorem arrivalTimes_shift (base traffic : ℚ) :
    ∀ (legs : List Leg) (s t0 : ℚ),
      arrivalTimes base traffic (s + t0) legs
        = (arrivalTimes base traffic t0 legs).map (fun e => s + e)
  | [], _, _ => rfl
  | leg :: rest, s, t0 => by
    simp only [arrivalTimes, List.map_cons, List.cons.injEq]
    refine ⟨by ring, ?_⟩
    rw [show s + t0 + leg_minutes base traffic leg
        = s + (t0 + leg_minutes base traffic leg) by ring]
    exact arrivalTimes_shift base traffic rest s (t0 + leg_minutes base traffic leg)

theorem vehicle_time_eq (base traffic : ℚ) :
    ∀ (legs : List Leg) (t0 : ℚ),
      vehicle_time base traffic t0 legs
        = t0 + travelSum base traffic legs + service_min * legs.length
  | [], t0 => by simp [vehicle_time, travelSum]
  | leg :: rest, t0 => by
    show vehicle_time base traffic (t0 + leg_minutes base traffic leg) rest = _
    rw [vehicle_time_eq base traffic rest (t0 + leg_minutes base traffic leg)]
    simp only [travelSum, leg_minutes, List.map_cons, List.sum_cons,
      List.length_cons]
    push_cast
    ring

theorem travel_min_nonneg (dist_m : ℤ) (base traffic : ℚ)
    (h : 0 ≤ dist_m) : 0 ≤ travel_min dist_m base traffic := by
  unfold travel_min
  have hspeed : (0 : ℚ) < projection_speed base traffic :=
    lt_of_lt_of_le zero_lt_one (le_max_right _ _)
  have hd : (0 : ℚ) ≤ (dist_m : ℚ) := by exact_mod_cast h
  positivity

theorem leg_minutes_nonneg (base traffic : ℚ) (leg : Leg)
    (h : 0 ≤ leg.dist_m) : 0 ≤ leg_minutes base traffic leg := by
  unfold leg_minutes service_min
  have := travel_min_nonneg leg.dist_m base traffic h
  linarith

theorem arrivalTimes_head_ge (base traffic : ℚ) :
    ∀ (legs : List Leg) (t0 : ℚ), (∀ leg ∈ legs, 0 ≤ leg.dist_m) →
      ∀ x ∈ (arrivalTimes base traffic t0 legs).head?, t0 ≤ x := by
  intro legs t0 h x hx
  cases legs with
  | nil => simp [arrivalTimes] at hx
  | cons leg rest =>
    simp only [arrivalTimes, List.head?_cons, Option.mem_def,
      Option.some.injEq] at hx
    have := leg_minutes_nonneg base traffic leg (h leg (List.mem_cons_self leg rest))
    rw [← hx]
    linarith

theorem sin_half_sub_sq (a b : ℝ) :
    Real.sin ((a - b) / 2) ^ 2 = Real.sin ((b - a) / 2) ^ 2 := by
  rw [show (a - b) / 2 = -((b - a) / 2) by ring, Real.sin_neg]
  ring

theorem hav_a_comm (lon1 lat1 lon2 lat2 : ℝ) :
    hav_a lon1 lat1 lon2 lat2 = hav_a lon2 lat2 lon1 lat1 := by
  unfold hav_a
  rw [sin_half_sub_sq (deg2rad lat2) (deg2rad lat1),
    sin_half_sub_sq (deg2rad lon2) (deg2rad lon1)]
  ring

theorem hav_a_self (lon lat : ℝ) : hav_a lon lat lon lat = 0 := by
  unfold hav_a
  simp

theorem haversine_self (lon lat : ℝ) : haversine lon lat lon lat = 0 := by
  unfold haversine
  rw [hav_a_self, Real.sqrt_zero, Real.arcsin_zero, mul_zero, zero_mul]

theorem intTrunc_zero : intTrunc 0 = 0 := by
  simp [intTrunc]

theorem matEntry_dist_matrix (locs : List Location) (i j : ℕ)
    (hi : i < locs.length) (hj : j < locs.length) :
    matEntry (dist_matrix locs) i j
      = intTrunc (haversine locs[i].lon locs[i].lat locs[j].lon locs[j].lat * 1000) := by
  simp [matEntry, dist_matrix, List.getElem?_map, List.getElem?_eq_getElem, hi, hj]

/-! ### Claim theorems -/

/-- Claim C1, counterexample: with every matrix entry zero (a customer
generated within a metre of the depot truncates to distance 0), the solver
tour `[1]` covers customer 1 exactly once, yet the extraction drops the
zero-total-distance route, so customer 1 appears in no output route at
all — the partition property fails on the produced output. -/
theorem partition_counterexample :
    (([[1]] : List (List ℕ)).map (fun t => t.count 1)).sum = 1 ∧
      ((raw_routes zeroDist [[1]]).map (fun r => (routeStops r).count 1)).sum = 0 ∧
      ((raw_routes zeroDist [[1]]).map (fun r => (routeStops r).count 1)).sum ≠ 1 := by
  decide

/-- Claim C1 (amended): if the solver's tours contain each customer exactly
once, every tour consists of nonzero (customer) nodes, and every tour that
contains the customer has positive total leg distance (so it survives the
`total_dist > 0` filter at line 168), then that customer appears in exactly
one output Route, exactly once; customers on zero-total-distance routes are
dropped from the output. -/
theorem partition_of_kept_routes (dist : ℕ → ℕ → ℤ) (tours : List (List ℕ)) (c : ℕ)
    (h0 : ∀ t ∈ tours, ∀ x ∈ t, x ≠ 0)
    (h1 : (tours.map (fun t => t.count c)).sum = 1)
    (h2 : ∀ t ∈ tours, c ∈ t → 0 < totalDist (routeLegs dist t)) :
    ((raw_routes dist tours).map (fun r => (routeStops r).count c)).sum = 1 := by
  rw [raw_routes, raw_routes_aux_count dist c 0 tours h0 h2, h1]

/-- Witness for the amended C1 at a concrete scenario with two tours. -/
theorem partition_of_kept_routes_witness :
    ((raw_routes demoDist [[1], [2]]).map (fun r => (routeStops r).count 1)).sum = 1 :=
  partition_of_kept_routes demoDist [[1], [2]] 1 (by decide) (by decide) (by decide)

/-- Claim C2, counterexample: after a failed solve the error flag is shown,
but the previously cached solution is still held in session state and is
rendered by the `if st.session_state.vrp_data_v7:` block — the render on the
failed solve is not empty. -/
theorem stale_render_counterexample :
    solve_error_shown none = true ∧
      rendered (update_on_solve (some demoVrp) none) = some demoVrp ∧
      rendered (update_on_solve (some demoVrp) none) ≠ none := by
  refine ⟨rfl, rfl, ?_⟩
  decide

/-- Claim C2 (amended): a failed solve surfaces an explicit error message
and leaves the session cache unchanged — so whatever solution a previous
successful solve stored is still rendered after the failure; a successful
solve replaces the cache with the fresh data and shows no error. -/
theorem solve_failure_behavior :
    (∀ s : Option VrpData, update_on_solve s none = s ∧
        rendered (update_on_solve s none) = rendered s) ∧
      solve_error_shown none = true ∧
      (∀ (s : Option VrpData) (d : VrpData),
        update_on_solve s (some d) = some d ∧ solve_error_shown (some d) = false) :=
  ⟨fun _ => ⟨rfl, rfl⟩, rfl, fun _ _ => ⟨rfl, rfl⟩⟩

/-- Claim C3, counterexample: at 99% traffic intensity and base speed 60 the
computed `effective_speed` is 0.6, but the projection divides by
`max(effective_speed, 1)`, so the speed it actually uses is 1, not 0.6; and
100% traffic intensity is not rejected — the projection still produces a
finite travel time (60 minutes for a 1000 m leg). -/
theorem traffic_clamp_counterexample :
    effective_speed 60 99 = 3 / 5 ∧
      projection_speed 60 99 = 1 ∧
      projection_speed 60 99 ≠ 3 / 5 ∧
      projection_speed 60 100 = 1 ∧
      travel_min 1000 60 100 = 60 := by
  have h1 : effective_speed 60 99 = 3 / 5 := by norm_num [effective_speed]
  have h2 : projection_speed 60 99 = 1 := by
    rw [projection_speed, h1]
    exact max_eq_right (by norm_num)
  have h4 : projection_speed 60 100 = 1 := by
    rw [projection_speed]
    have : effective_speed 60 100 = 0 := by norm_num [effective_speed]
    rw [this]
    exact max_eq_right (by norm_num)
  have h5 : travel_min 1000 60 100 = 60 := by
    rw [travel_min, h4]
    norm_num
  exact ⟨h1, h2, by rw [h2]; norm_num, h4, h5⟩

/-- Claim C3 (amended): the projection's divisor `max(effective_speed, 1)`
is always at least 1, so no traffic intensity produces a degenerate or
infinite travel time; at 99% traffic and base speed 60 the computed
effective speed is 0.6 but the speed the projection uses is clamped to 1,
and 100% traffic is likewise clamped rather than rejected (the UI slider
merely caps the intensity at 90%). -/
theorem projection_speed_clamped :
    (∀ base traffic : ℚ, 1 ≤ projection_speed base traffic) ∧
      effective_speed 60 99 = 3 / 5 ∧
      projection_speed 60 99 = 1 ∧
      projection_speed 60 100 = 1 ∧
      travel_min 1000 60 100 = 60 := by
  refine ⟨fun base traffic => le_max_right _ _, by norm_num [effective_speed], ?_, ?_, ?_⟩
  · rw [projection_speed, show effective_speed 60 99 = 3 / 5 by norm_num [effective_speed]]
    exact max_eq_right (by norm_num)
  · rw [projection_speed, show effective_speed 60 100 = 0 by norm_num [effective_speed]]
    exact max_eq_right (by norm_num)
  · rw [travel_min, projection_speed,
      show effective_speed 60 100 = 0 by norm_num [effective_speed]]
    rw [show max (0 : ℚ) 1 = 1 from max_eq_right (by norm_num)]
    norm_num

/-- Claim C4, counterexample: the projection's start time is sampled from
`datetime.now()` (date at 08:00), not passed as an input; with identical
route, speed and service inputs, invocations on two different wall-clock
days produce different arrival timestamps. -/
theorem projection_wall_clock_counterexample :
    arrivalTimes 60 20 (current_time_base 0 0) demoLegs
      ≠ arrivalTimes 60 20 (current_time_base 1 0) demoLegs := by
  have hlegs : demoLegs = [⟨0, 1, 1000⟩, ⟨1, 0, 1000⟩] := rfl
  rw [hlegs]
  simp only [arrivalTimes, ne_eq, List.cons.injEq, not_and]
  intro h1
  have h2 := add_right_cancel h1
  norm_num [current_time_base] at h2

/-- Claim C4 (amended): the projection is a pure function of the sampled
base time and the explicit route inputs — its arrival times are exactly the
input-only elapsed times shifted by the base sampled from the wall clock
(today's date at 08:00, plus the sub-minute component `replace` keeps); so
repeated invocations agree whenever the sampled base agrees, but the start
time is not an explicit parameter and the timestamps move with the date. -/
theorem projection_shift_by_base (d : ℕ) (micro base traffic : ℚ)
    (legs : List Leg) :
    arrivalTimes base traffic (current_time_base d micro) legs
      = (arrivalTimes base traffic 0 legs).map
          (fun e => current_time_base d micro + e) := by
  have h := arrivalTimes_shift base traffic legs (current_time_base d micro) 0
  rw [add_zero] at h
  exact h

/-- Claim C5 (confirmed): the `Distance` dimension constrains each vehicle's
cumulative transit — the same matrix entries the extraction records — to at
most 300000; under that solver guarantee, every route in the output has
total leg distance at most `maxDistancePerVehicle`.  The bound is on the
integer matrix itself, so it is exact, with no extra rounding slack. -/
theorem route_distance_cap (dist : ℕ → ℕ → ℤ) (tours : List (List ℕ))
    (hcap : ∀ t ∈ tours, totalDist (routeLegs dist t) ≤ maxDistancePerVehicle) :
    ∀ r ∈ raw_routes dist tours, totalDist r.legs ≤ maxDistancePerVehicle := by
  intro r hr
  obtain ⟨t, ht, hlegs, -⟩ := mem_raw_routes_aux dist 0 tours r hr
  rw [hlegs]
  exact hcap t ht

/-- Witness for C5 at a concrete feasible scenario. -/
theorem route_distance_cap_witness :
    totalDist demoRoute.legs ≤ maxDistancePerVehicle :=
  route_distance_cap demoDist [[1]] (by decide) demoRoute (by decide)

/-- Claim C6, counterexample: for the route serving the single customer 1
with 1000 m legs at base speed 60 and no traffic, the code's elapsed time is
32 minutes (1 travel + 15 service on each of the two legs, the return to the
depot included), while the spec formula — travel plus service only per
customer stop — gives 17 minutes. -/
theorem service_time_counterexample :
    vehicle_time 60 0 480 demoLegs - 480 = 32 ∧
      spec_route_elapsed 60 0 demoLegs = 17 ∧
      vehicle_time 60 0 480 demoLegs - 480 ≠ spec_route_elapsed 60 0 demoLegs := by
  have hlegs : demoLegs = [⟨0, 1, 1000⟩, ⟨1, 0, 1000⟩] := rfl
  have hspeed : projection_speed 60 0 = 60 := by
    rw [projection_speed, show effective_speed 60 0 = 60 by norm_num [effective_speed]]
    exact max_eq_left (by norm_num)
  have htravel : travel_min 1000 60 0 = 1 := by
    rw [travel_min, hspeed]
    norm_num
  have h1 : vehicle_time 60 0 480 demoLegs - 480 = 32 := by
    rw [hlegs]
    simp only [vehicle_time, List.foldl_cons, List.foldl_nil, leg_minutes]
    rw [htravel]
    norm_num [service_min]
  have h2 : spec_route_elapsed 60 0 demoLegs = 17 := by
    rw [hlegs]
    simp only [spec_route_elapsed, travelSum, List.map_cons, List.map_nil,
      List.sum_cons, List.sum_nil]
    rw [htravel]
    norm_num [service_min, List.filter, service_min]
  refine ⟨h1, h2, ?_⟩
  rw [h1, h2]
  norm_num

/-- Claim C6 (amended): the per-vehicle elapsed time equals the sum over
legs of `(dist_m / 1000) / max(effective_speed, 1) * 60` plus the fixed
15-minute service duration once per leg — that is,
`service_min * (number of customer stops + 1)`, the service increment being
accrued on the final return leg to the depot as well. -/
theorem route_elapsed_formula (dist : ℕ → ℕ → ℤ) (tour : List ℕ)
    (base traffic t0 : ℚ) :
    vehicle_time base traffic t0 (routeLegs dist tour) - t0
      = travelSum base traffic (routeLegs dist tour)
          + service_min * ((tour.length : ℚ) + 1) := by
  rw [vehicle_time_eq, routeLegs_length]
  push_cast
  ring

/-- Claim C7 (confirmed): within a route, each leg adds a nonnegative travel
time plus the positive service time, so the successive arrival timestamps
are non-decreasing in stop order (matrix distances are nonnegative). -/
theorem arrival_times_monotone (base traffic t0 : ℚ) (legs : List Leg)
    (h : ∀ leg ∈ legs, 0 ≤ leg.dist_m) :
    List.Chain' (fun a b => a ≤ b) (arrivalTimes base traffic t0 legs) := by
  induction legs generalizing t0 with
  | nil => exact List.chain'_nil
  | cons leg rest ih =>
    rw [arrivalTimes]
    refine List.chain'_cons'.mpr ⟨?_, ?_⟩
    · exact arrivalTimes_head_ge base traffic rest
        (t0 + leg_minutes base traffic leg)
        (fun l hl => h l (List.mem_cons_of_mem leg hl))
    · exact ih (t0 + leg_minutes base traffic leg)
        (fun l hl => h l (List.mem_cons_of_mem leg hl))

/-- Witness for C7 on a concrete route. -/
theorem arrival_times_monotone_witness :
    List.Chain' (fun a b => a ≤ b) (arrivalTimes 60 20 480 demoLegs) :=
  arrival_times_monotone 60 20 480 demoLegs (by decide)

/-- Claim C8 (confirmed): the distance matrix is a complete square table
over all generated locations — one row per location, each of full width —
whose `(i, j)` entry is the haversine distance in km times 1000, truncated
toward zero to an integer, and every diagonal entry is zero. -/
theorem dist_matrix_spec (locs : List Location) :
    (dist_matrix locs).length = locs.length ∧
      (∀ row ∈ dist_matrix locs, row.length = locs.length) ∧
      (∀ (i j : ℕ) (hi : i < locs.length) (hj : j < locs.length),
        matEntry (dist_matrix locs) i j
          = intTrunc (haversine locs[i].lon locs[i].lat
              locs[j].lon locs[j].lat * 1000)) ∧
      (∀ (i : ℕ) (_hi : i < locs.length), matEntry (dist_matrix locs) i i = 0) := by
  refine ⟨by simp [dist_matrix], fun row hrow => ?_,
    matEntry_dist_matrix locs, fun i hi => ?_⟩
  · simp only [dist_matrix, List.mem_map] at hrow
    obtain ⟨li, -, rfl⟩ := hrow
    simp
  · rw [matEntry_dist_matrix locs i i hi hi, haversine_self, zero_mul,
      intTrunc_zero]

/-- Witness for C8: the diagonal entry of the one-location matrix is zero. -/
theorem dist_matrix_spec_witness : matEntry (dist_matrix demoLocs) 0 0 = 0 :=
  (dist_matrix_spec demoLocs).2.2.2 0 (by decide)

/-- Claim C9 (confirmed): the haversine great-circle distance is symmetric
in its two points. -/
theorem haversine_symm (lon1 lat1 lon2 lat2 : ℝ) :
    haversine lon1 lat1 lon2 lat2 = haversine lon2 lat2 lon1 lat1 := by
  unfold haversine
  rw [hav_a_comm]

/-- Claim C10 (confirmed): every route in the output has at least one leg
and strictly positive total leg distance; a vehicle whose legs sum to zero
distance — in particular an unused vehicle, whose single depot-to-depot leg
has the zero diagonal distance — contributes no route to the output. -/
theorem routes_nonempty_positive (dist : ℕ → ℕ → ℤ) (tours : List (List ℕ)) :
    (∀ r ∈ raw_routes dist tours, r.legs ≠ [] ∧ 0 < totalDist r.legs) ∧
      (∀ t : List ℕ, totalDist (routeLegs dist t) = 0 →
        ∀ r ∈ raw_routes dist tours, r.legs ≠ routeLegs dist t) ∧
      (dist 0 0 = 0 →
        ∀ r ∈ raw_routes dist tours, r.legs ≠ routeLegs dist []) := by
  have hmem : ∀ r ∈ raw_routes dist tours,
      r.legs ≠ [] ∧ 0 < totalDist r.legs := by
    intro r hr
    obtain ⟨t, -, hlegs, hpos⟩ := mem_raw_routes_aux dist 0 tours r hr
    refine ⟨?_, hpos⟩
    rw [hlegs]
    exact List.ne_nil_of_length_pos (routeLegs_length_pos dist t)
  have hzero : ∀ t : List ℕ, totalDist (routeLegs dist t) = 0 →
      ∀ r ∈ raw_routes dist tours, r.legs ≠ routeLegs dist t := by
    intro t ht r hr heq
    have := (hmem r hr).2
    rw [heq, ht] at this
    exact lt_irrefl 0 this
  refine ⟨hmem, hzero, fun hdiag => ?_⟩
  apply hzero
  simp [routeLegs, legsOfPath, totalDist, hdiag]

/-- Witness for C10 at a concrete scenario. -/
theorem routes_nonempty_positive_witness :
    demoRoute.legs ≠ [] ∧ 0 < totalDist demoRoute.legs :=
  (routes_nonempty_positive demoDist [[1]]).1 demoRoute (by decide)

end VRP
